import Mathlib

/-!
Shallow embedding of the wandbot retrieval engine
(`src/wandbot/retriever/base.py`) together with the parts of its pipeline
that the repository wires in but whose sources live outside the snapshot
(`wandbot/retriever/fusion.py`, `wandbot/retriever/postprocessors.py`, the
Cohere re-rank collaborator); those parts are modelled from the spec and
marked as such.  Scores are modelled as integers: no claim computes with
score values, they are only carried through.
-/

namespace Wandbot

/-- Metadata carried by a passage node: at minimum a `language` tag and a
list of topical tags, plus any further key/value pairs. -/
structure Metadata where
  language : String
  tags : List String
  extra : List (String × String) := []
  deriving Repr, DecidableEq

/-- A passage node with its current score (`NodeWithScore` in the source). -/
structure Node where
  id : Nat
  text : String
  metadata : Metadata
  score : Int
  deriving Repr, DecidableEq

/-- One element of the list returned by `Retriever.retrieve`: a record with
exactly the fields `text`, `metadata` and `score`
(`base.py` lines 226-233). -/
structure OutputRecord where
  text : String
  metadata : Metadata
  score : Int
  deriving Repr, DecidableEq

/-- The dict built from a node in `Retriever.retrieve`:
`{"text": node.get_text(), "metadata": node.metadata, "score": node.get_score()}`. -/
def Node.toOutput (n : Node) : OutputRecord :=
  { text := n.text, metadata := n.metadata, score := n.score }

/-- Python's `x or d` on an optional integer: `None` and `0` are falsy and
yield the default, any other value is returned as supplied. -/
def pyOrNat (x : Option Nat) (d : Nat) : Nat :=
  match x with
  | none => d
  | some v => if v = 0 then d else v

/-- Python's `x or d` on an optional string: `None` and `""` are falsy and
yield the default, any other value is returned as supplied. -/
def pyOrStr (x : Option String) (d : String) : String :=
  match x with
  | none => d
  | some s => if s = "" then d else s

/-- `RetrieverConfig` (`base.py` lines 52-74).  The pydantic settings class
declares exactly these fields; `extra = "allow"` lets the environment attach
further fields, modelled by the `extra` assoc list (empty when
default-constructed with no extra environment-supplied field). -/
structure RetrieverConfig where
  index_artifact : String := "wandbot/wandbot-dev/wandbot_index:latest"
  embeddings_model : String := "text-embedding-3-small"
  embeddings_size : Int := 512
  top_k : Nat := 10
  similarity_top_k : Nat := 10
  language : String := "en"
  extra : List (String × Int) := []
  deriving Repr

/-- Python attribute access `config.<name>` for integer-valued attributes:
the declared fields answer to their declared names, anything else is looked
up among the environment-supplied extras; `none` models `AttributeError`. -/
def RetrieverConfig.getIntAttr (c : RetrieverConfig) (name : String) : Option Int :=
  if name = "embeddings_size" then some c.embeddings_size
  else if name = "top_k" then some (Int.ofNat c.top_k)
  else if name = "similarity_top_k" then some (Int.ofNat c.similarity_top_k)
  else (c.extra.find? (fun p => p.1 = name)).map Prod.snd

/-- Configuration of the metadata (tag) post-processor as built in
`load_query_engine` (`base.py` lines 163-167). -/
structure MetadataPPSpec where
  include_tags : Option (List String)
  exclude_tags : Option (List String)
  min_result_size : Nat
  deriving Repr, DecidableEq

/-- Configuration of the language filter post-processor as built in
`load_query_engine` (`base.py` lines 168-169). -/
structure LanguagePPSpec where
  languages : List String
  min_result_size : Nat
  deriving Repr, DecidableEq

/-- Configuration of the Cohere re-ranker as built in `load_query_engine`
(`base.py` lines 171-173). -/
structure RerankSpec where
  top_n : Nat
  model : String
  deriving Repr, DecidableEq

/-- The ordered post-processor chain handed to
`WandbRetrieverQueryEngine.from_args` (`base.py` lines 162-174). -/
inductive Stage where
  | metadataPP (s : MetadataPPSpec)
  | languagePP (s : LanguagePPSpec)
  | rerankPP (s : RerankSpec)
  deriving Repr, DecidableEq

/-- The kind of a post-processor stage, for stating the pipeline order. -/
inductive StageKind where
  | metadata
  | language
  | rerank
  deriving Repr, DecidableEq

def Stage.kind : Stage → StageKind
  | .metadataPP _ => .metadata
  | .languagePP _ => .language
  | .rerankPP _ => .rerank

/-- The query engine produced by `load_query_engine`: its post-processor
configurations, in order. -/
structure QueryEngineSpec where
  metadataPP : MetadataPPSpec
  languagePP : LanguagePPSpec
  rerankPP : RerankSpec
  deriving Repr, DecidableEq

/-- The `node_postprocessors` list of the engine, in source order. -/
def QueryEngineSpec.stages (e : QueryEngineSpec) : List Stage :=
  [.metadataPP e.metadataPP, .languagePP e.languagePP, .rerankPP e.rerankPP]

/-- Modelled from the spec: external collaborators of the engine whose code
is not under `src/` — the fusion retriever output
(`wandbot/retriever/fusion.py`, spec section 4.2: a ranked, deduplicated list,
possibly empty, whose content may depend on the avoid-query flag) and the
Cohere re-rank relevance scorer (spec section 6:
`rerank(query, passage_text) -> score`).  Both are arbitrary functions. -/
structure RetrieveEnv where
  fusedResults : String → Bool → List Node
  rerankScore : String → String → Int

/-- Modelled from the spec: `MetadataPostprocessor`
(`wandbot/retriever/postprocessors.py` is not under `src/`; spec section 4.3):
does the node survive the exclude-tags test (its tags do not intersect
`exclude_tags`)? -/
def passesExclude (exclude : List String) (n : Node) : Bool :=
  n.metadata.tags.all (fun t => ¬ exclude.contains t)

/-- Modelled from the spec: the include-tags test of `MetadataPostprocessor` —
when `include_tags` is non-empty the node's tags must intersect it. -/
def passesInclude (include_tags : List String) (n : Node) : Bool :=
  include_tags.isEmpty || n.metadata.tags.any (fun t => include_tags.contains t)

/-- Modelled from the spec: `MetadataPostprocessor.apply`
(`wandbot/retriever/postprocessors.py` is not under `src/`; spec section 4.3):
drop nodes failing the exclude then include tests; if the result falls below
`min_result_size`, relax the exclude filter first, then the include filter. -/
def MetadataPPSpec.apply (s : MetadataPPSpec) (nodes : List Node) : List Node :=
  let include_tags := s.include_tags.getD []
  let exclude_tags := s.exclude_tags.getD []
  let strict := nodes.filter
    (fun n => passesExclude exclude_tags n && passesInclude include_tags n)
  if s.min_result_size ≤ strict.length then strict
  else
    let noExclude := nodes.filter (passesInclude include_tags)
    if s.min_result_size ≤ noExclude.length then noExclude else nodes

/-- Modelled from the spec: `LanguageFilterPostprocessor.apply`
(`wandbot/retriever/postprocessors.py` is not under `src/`; spec sections 4.3
and 8): keep nodes whose `language` metadata is among the configured
languages; if that falls below `min_result_size`, backfill by passing the
input through. -/
def LanguagePPSpec.apply (s : LanguagePPSpec) (nodes : List Node) : List Node :=
  let strict := nodes.filter (fun n => s.languages.contains n.metadata.language)
  if s.min_result_size ≤ strict.length then strict else nodes

/-- Insert a node into a list already sorted by descending score, keeping
earlier elements first on ties. -/
def insertByScoreDesc (n : Node) : List Node → List Node
  | [] => [n]
  | m :: ms =>
      if n.score ≤ m.score then m :: insertByScoreDesc n ms else n :: m :: ms

/-- Sort a node list by descending score (stable insertion sort). -/
def sortByScoreDesc : List Node → List Node
  | [] => []
  | n :: ns => insertByScoreDesc n (sortByScoreDesc ns)

/-- Modelled from the spec: `CohereRerank.apply` (an external collaborator
configured in `base.py` lines 171-173; spec section 4.3): re-score every
candidate with the relevance model on the (query, passage text) pair, order by
the new scores, and truncate to `top_n`. -/
def RerankSpec.apply (score : String → String → Int) (s : RerankSpec)
    (query : String) (nodes : List Node) : List Node :=
  (sortByScoreDesc (nodes.map
    (fun n => { n with score := score query n.text }))).take s.top_n

/-- Apply one post-processor stage to a candidate list. -/
def applyStage (env : RetrieveEnv) (query : String) (nodes : List Node) :
    Stage → List Node
  | .metadataPP s => s.apply nodes
  | .languagePP s => s.apply nodes
  | .rerankPP s => s.apply env.rerankScore query nodes

/-- `_apply_node_postprocessors`: apply the chain left to right. -/
def applyStages (env : RetrieveEnv) (query : String) (stages : List Stage)
    (nodes : List Node) : List Node :=
  stages.foldl (fun ns st => applyStage env query ns st) nodes

/-- `WandbRetrieverQueryEngine.retrieve` (`base.py` lines 45-49): fetch the
fused retrieval output, then run the post-processor chain over it. -/
def WandbRetrieverQueryEngine.retrieve (env : RetrieveEnv)
    (e : QueryEngineSpec) (query : String) (is_avoid_query : Bool) :
    List Node :=
  applyStages env query e.stages (env.fusedResults query is_avoid_query)

/-- The mutable state of a `Retriever` instance that the claims observe:
its configuration and the sticky `is_avoid_query` flag
(`base.py` lines 85-87 and 125). -/
structure RetrieverState where
  config : RetrieverConfig
  is_avoid_query : Option Bool
  deriving Repr

/-- `Retriever.load_query_engine` (`base.py` lines 148-181): resolve
`top_k` and `language` with Python falsy-or against the configured defaults,
store a non-`None` `is_avoid_query` argument on the instance, and build the
post-processor chain: metadata filter, language filter, then the Cohere
re-ranker whose model is the English variant exactly when the resolved
language is `"en"`. -/
def Retriever.load_query_engine (s : RetrieverState)
    (top_k : Option Nat := none) (language : Option String := none)
    (include_tags : Option (List String) := none)
    (exclude_tags : Option (List String) := none)
    (is_avoid_query : Option Bool := none) :
    QueryEngineSpec × RetrieverState :=
  let top_k := pyOrNat top_k s.config.top_k
  let language := pyOrStr language s.config.language
  let s :=
    match is_avoid_query with
    | some b => { s with is_avoid_query := some b }
    | none => s
  ({ metadataPP :=
      { include_tags := include_tags, exclude_tags := exclude_tags,
        min_result_size := top_k }
    , languagePP :=
      { languages := [language, "python"], min_result_size := top_k }
    , rerankPP :=
      { top_n := top_k,
        model := if language = "en" then "rerank-english-v2.0"
                 else "rerank-multilingual-v2.0" } }, s)

/-- `Retriever.retrieve` (`base.py` lines 183-235): resolve options, build
the query engine (without forwarding `is_avoid_query`), compute the effective
avoid flag as `self.is_avoid_query or is_avoid_query`, run the engine, map
every node to its output dict, and reset the stored flag to `None`. -/
def Retriever.retrieve (env : RetrieveEnv) (s : RetrieverState)
    (query : String) (language : Option String := none)
    (top_k : Option Nat := none)
    (include_tags : Option (List String) := none)
    (exclude_tags : Option (List String) := none)
    (is_avoid_query : Option Bool := some false) :
    List OutputRecord × RetrieverState :=
  let top_k := pyOrNat top_k s.config.top_k
  let language := pyOrStr language s.config.language
  let (engine, s1) :=
    Retriever.load_query_engine s (some top_k) (some language)
      include_tags exclude_tags none
  let avoid_query : Bool :=
    s1.is_avoid_query.getD false || is_avoid_query.getD false
  let results := WandbRetrieverQueryEngine.retrieve env engine query avoid_query
  let outputs := results.map Node.toOutput
  (outputs, { s1 with is_avoid_query := none })

/-- The final ranked node list of a `retrieve` call, before it is mapped to
output records: the post-processor chain applied to the fused results under
the call's resolved options and effective avoid flag. -/
def Retriever.finalNodes (env : RetrieveEnv) (s : RetrieverState)
    (query : String) (language : Option String := none)
    (top_k : Option Nat := none)
    (include_tags : Option (List String) := none)
    (exclude_tags : Option (List String) := none)
    (is_avoid_query : Option Bool := some false) : List Node :=
  let top_k := pyOrNat top_k s.config.top_k
  let language := pyOrStr language s.config.language
  let (engine, s1) :=
    Retriever.load_query_engine s (some top_k) (some language)
      include_tags exclude_tags none
  let avoid_query : Bool :=
    s1.is_avoid_query.getD false || is_avoid_query.getD false
  WandbRetrieverQueryEngine.retrieve env engine query avoid_query

/-- Python runtime errors the embedded code can raise. -/
inductive PyError where
  | indexError
  | attributeError (name : String)
  deriving Repr, DecidableEq

/-- `Retriever.__call__` (`base.py` lines 237-241): delegate to `retrieve`,
then log; the second debug line is an f-string containing `retrievals[0]`,
which Python evaluates eagerly regardless of the log level, so an empty
result list raises `IndexError` here. -/
def Retriever.call (env : RetrieveEnv) (s : RetrieverState) (query : String)
    (language : Option String := none) (top_k : Option Nat := none)
    (include_tags : Option (List String) := none)
    (exclude_tags : Option (List String) := none)
    (is_avoid_query : Option Bool := some false) :
    Except PyError (List OutputRecord × RetrieverState) :=
  let (retrievals, s1) :=
    Retriever.retrieve env s query language top_k include_tags exclude_tags
      is_avoid_query
  match retrievals with
  | [] => .error .indexError
  | _ => .ok (retrievals, s1)

/-- An opaque-to-the-claims service context; `__init__` only needs to know
whether one was supplied. -/
structure ServiceContext where
  tag : Nat := 0
  deriving Repr

/-- `Retriever.__init__` (`base.py` lines 78-125): fall back to a
default-constructed `RetrieverConfig` when none is supplied; when no
`service_context` is supplied, call `load_service_context` with
`embeddings_size = self.config.embeddings_dim` — an attribute
`RetrieverConfig` does not declare, so the access raises `AttributeError`
unless the environment attached such an extra field.  On success the
instance starts with `is_avoid_query = None`. -/
def Retriever.init (config : Option RetrieverConfig)
    (service_context : Option ServiceContext) :
    Except PyError RetrieverState :=
  let cfg := config.getD {}
  match service_context with
  | some _ => .ok { config := cfg, is_avoid_query := none }
  | none =>
      match cfg.getIntAttr "embeddings_dim" with
      | none => .error (.attributeError "embeddings_dim")
      | some _ => .ok { config := cfg, is_avoid_query := none }

/-- A sample passage node tagged with the always-allowed language "python". -/
def nodePy : Node :=
  { id := 1, text := "import wandb"
  , metadata := { language := "python", tags := ["api"] }, score := 3 }

/-- A sample English documentation node. -/
def nodeEn : Node :=
  { id := 2, text := "Use wandb.log to record metrics."
  , metadata := { language := "en", tags := ["guides"] }, score := 5 }

/-- An environment whose fused retrieval finds nothing for any query
(an empty index store). -/
def emptyEnv : RetrieveEnv :=
  { fusedResults := fun _ _ => [], rerankScore := fun _ _ => 0 }

/-- An environment whose fused retrieval returns exactly one node. -/
def oneNodeEnv : RetrieveEnv :=
  { fusedResults := fun _ _ => [nodeEn], rerankScore := fun _ _ => 7 }

/-- A retriever instance state with the default configuration and no stored
avoid flag, as after a successful `__init__`. -/
def s0 : RetrieverState := { config := {}, is_avoid_query := none }

end Wandbot

namespace Wandbot

/-- Resolving an already-resolved `top_k` again (as `load_query_engine` does
with the value `retrieve` passes it) changes nothing. -/
theorem pyOrNat_idem (x : Option Nat) (d : Nat) :
    pyOrNat (some (pyOrNat x d)) d = pyOrNat x d := by
  cases x with
  | none => simp [pyOrNat]
  | some v =>
      by_cases h : v = 0 <;> simp [pyOrNat, h]

/-- Resolving an already-resolved `language` again changes nothing. -/
theorem pyOrStr_idem (x : Option String) (d : String) :
    pyOrStr (some (pyOrStr x d)) d = pyOrStr x d := by
  cases x with
  | none => simp [pyOrStr]
  | some v =>
      by_cases h : v = "" <;> simp [pyOrStr, h]

/-- The three-stage chain built by `load_query_engine` folds to the nested
application: metadata filter, then language filter, then re-ranker. -/
theorem applyStages_three (env : RetrieveEnv) (q : String)
    (md : MetadataPPSpec) (lp : LanguagePPSpec) (rr : RerankSpec)
    (nodes : List Node) :
    applyStages env q [.metadataPP md, .languagePP lp, .rerankPP rr] nodes
      = rr.apply env.rerankScore q (lp.apply (md.apply nodes)) := rfl

/-- The re-rank stage returns at most `top_n` nodes. -/
theorem RerankSpec.apply_length_le (score : String → String → Int)
    (rr : RerankSpec) (q : String) (nodes : List Node) :
    (rr.apply score q nodes).length ≤ rr.top_n := by
  simp [RerankSpec.apply, List.length_take]

/-- A candidate node whose language passes the configured language test is in
the language filter's output, on both the strict and the backfill branch. -/
theorem LanguagePPSpec.mem_apply (s : LanguagePPSpec) (nodes : List Node)
    (n : Node) (hmem : n ∈ nodes)
    (hcont : s.languages.contains n.metadata.language = true) :
    n ∈ s.apply nodes := by
  by_cases hle : s.min_result_size ≤
      (nodes.filter
        (fun m => s.languages.contains m.metadata.language)).length
  · simp only [LanguagePPSpec.apply, if_pos hle]
    exact List.mem_filter.mpr ⟨hmem, hcont⟩
  · simp only [LanguagePPSpec.apply, if_neg hle]
    exact hmem

/-- C1: `Retriever.retrieve` does return an empty sequence without raising on
a query with no matching nodes, but `Retriever.__call__`, which delegates to
it, raises `IndexError` there: the debug f-string evaluates `retrievals[0]`
eagerly on the empty list.  The code contradicts the claim at its own logging
slip. -/
theorem call_raises_on_empty_results :
    ((Retriever.retrieve emptyEnv s0 "How do I log metrics?"
        none none none none (some false)).1 = [])
    ∧ (Retriever.call emptyEnv s0 "How do I log metrics?"
        none none none none (some false)
      = Except.error PyError.indexError) :=
  ⟨rfl, rfl⟩

/-- C2: the `is_avoid_query` flag is cross-call sticky: `load_query_engine`
with a non-`None` argument stores it; a subsequent `retrieve` with the
default `is_avoid_query = False` behaves exactly like an explicit avoid-mode
call; the effective flag passed to the fused retrieval is the stored flag
OR-ed with the per-call argument; and every completed `retrieve` resets the
stored flag to `None`. -/
theorem is_avoid_query_sticky (env : RetrieveEnv) (s : RetrieverState)
    (tk tk2 : Option Nat) (lang lang2 : Option String)
    (inc exc inc2 exc2 : Option (List String)) (q : String) (b : Bool) :
    ((Retriever.load_query_engine s tk lang inc exc
        (some b)).2.is_avoid_query = some b)
    ∧ ((Retriever.retrieve env
          (Retriever.load_query_engine s tk lang inc exc (some true)).2
          q lang2 tk2 inc2 exc2 (some false)).1
        = (Retriever.retrieve env { s with is_avoid_query := none }
            q lang2 tk2 inc2 exc2 (some true)).1)
    ∧ (∀ (f av : Option Bool),
        (Retriever.retrieve env { s with is_avoid_query := f }
            q lang2 tk2 inc2 exc2 av).1
          = (WandbRetrieverQueryEngine.retrieve env
              (Retriever.load_query_engine { s with is_avoid_query := f }
                (some (pyOrNat tk2 s.config.top_k))
                (some (pyOrStr lang2 s.config.language)) inc2 exc2 none).1
              q (f.getD false || av.getD false)).map Node.toOutput)
    ∧ (∀ (av : Option Bool),
        (Retriever.retrieve env s q lang2 tk2 inc2 exc2
            av).2.is_avoid_query = none) :=
  ⟨rfl, rfl, fun _ _ => rfl, fun _ => rfl⟩

/-- C3: the list returned by the full retrieve pipeline has length at most
the effective `top_k` of the call — the caller-supplied value resolved
against the configured default. -/
theorem retrieve_length_le_top_k (env : RetrieveEnv) (s : RetrieverState)
    (q : String) (lang : Option String) (tk : Option Nat)
    (inc exc : Option (List String)) (av : Option Bool) :
    (Retriever.retrieve env s q lang tk inc exc av).1.length
      ≤ pyOrNat tk s.config.top_k := by
  simp only [Retriever.retrieve, Retriever.load_query_engine,
    WandbRetrieverQueryEngine.retrieve, QueryEngineSpec.stages,
    applyStages_three, List.length_map]
  calc _ ≤ pyOrNat (some (pyOrNat tk s.config.top_k)) s.config.top_k :=
        RerankSpec.apply_length_le ..
    _ = pyOrNat tk s.config.top_k := pyOrNat_idem ..

/-- C4: the re-ranking stage built by `load_query_engine` uses the English
re-rank model exactly when the resolved language is `"en"`, the multilingual
model otherwise, and in both cases its `top_n` is the effective `top_k`. -/
theorem rerank_model_matches_language (s : RetrieverState) (tk : Option Nat)
    (lang : Option String) (inc exc : Option (List String))
    (av : Option Bool) :
    ((Retriever.load_query_engine s tk lang inc exc av).1.rerankPP.top_n
        = pyOrNat tk s.config.top_k)
    ∧ (pyOrStr lang s.config.language = "en" →
        (Retriever.load_query_engine s tk lang inc exc av).1.rerankPP.model
          = "rerank-english-v2.0")
    ∧ (pyOrStr lang s.config.language ≠ "en" →
        (Retriever.load_query_engine s tk lang inc exc av).1.rerankPP.model
          = "rerank-multilingual-v2.0") := by
  refine ⟨?_, fun h => ?_, fun h => ?_⟩
  · exact rfl
  · simp [Retriever.load_query_engine, h]
  · simp [Retriever.load_query_engine, h]

/-- C4 witness: a concrete non-English call selects the multilingual model. -/
theorem rerank_model_matches_language_witness :
    (pyOrStr (some "ja") s0.config.language ≠ "en")
    ∧ ((Retriever.load_query_engine s0 (some 5) (some "ja")
        none none none).1.rerankPP.model = "rerank-multilingual-v2.0") :=
  ⟨by decide,
   (rerank_model_matches_language s0 (some 5) (some "ja")
      none none none).2.2 (by decide)⟩

/-- C5: the language filter stage is configured with exactly the resolved
language plus the always-allowed `"python"`, and any candidate node whose
language metadata is `"python"` is in the stage's output. -/
theorem language_filter_python_passes (s : RetrieverState) (tk : Option Nat)
    (lang : Option String) (inc exc : Option (List String)) (av : Option Bool)
    (nodes : List Node) (n : Node) (hmem : n ∈ nodes)
    (hpy : n.metadata.language = "python") :
    ((Retriever.load_query_engine s tk lang inc exc av).1.languagePP.languages
        = [pyOrStr lang s.config.language, "python"])
    ∧ n ∈ (Retriever.load_query_engine s tk lang inc exc
            av).1.languagePP.apply nodes := by
  refine ⟨rfl, ?_⟩
  apply LanguagePPSpec.mem_apply _ _ _ hmem
  simp [Retriever.load_query_engine, hpy]

/-- C5 witness: the concrete python-tagged node passes a default-option
language filter. -/
theorem language_filter_python_passes_witness :
    nodePy ∈ [nodePy] ∧ nodePy.metadata.language = "python"
    ∧ nodePy ∈ (Retriever.load_query_engine s0 none none none none
        none).1.languagePP.apply [nodePy] :=
  ⟨by simp, rfl,
   (language_filter_python_passes s0 none none none none none
      [nodePy] nodePy (by simp) rfl).2⟩

/-- C6: the post-processor chain of every engine built by
`load_query_engine` is, in order, the metadata filter, the language filter,
then the re-ranker, and `WandbRetrieverQueryEngine.retrieve` applies them to
the fused output in exactly that nesting. -/
theorem postprocessor_chain_fixed_order (env : RetrieveEnv)
    (s : RetrieverState) (tk : Option Nat) (lang : Option String)
    (inc exc : Option (List String)) (av : Option Bool) (q : String)
    (avoid : Bool) :
    (((Retriever.load_query_engine s tk lang inc exc av).1.stages).map
        Stage.kind = [StageKind.metadata, StageKind.language, StageKind.rerank])
    ∧ (WandbRetrieverQueryEngine.retrieve env
          (Retriever.load_query_engine s tk lang inc exc av).1 q avoid
        = ((Retriever.load_query_engine s tk lang inc exc
              av).1.rerankPP).apply env.rerankScore q
            (((Retriever.load_query_engine s tk lang inc exc
                av).1.languagePP).apply
              (((Retriever.load_query_engine s tk lang inc exc
                  av).1.metadataPP).apply
                (env.fusedResults q avoid)))) :=
  ⟨rfl, rfl⟩

/-- C7 counterexample: the claim says caller-supplied values are used, but a
call that supplies `top_k = 0` against a one-node index returns one result,
not zero: the falsy-or resolution replaced the supplied `0` by the default. -/
theorem supplied_zero_top_k_ignored :
    ((Retriever.retrieve oneNodeEnv s0 "q" none (some 0) none none
        (some false)).1.length = 1)
    ∧ ¬ ((Retriever.retrieve oneNodeEnv s0 "q" none (some 0) none none
        (some false)).1.length ≤ 0) :=
  ⟨rfl, by decide⟩

/-- C7 amended: omitted `top_k` and `language` resolve to the configured
defaults (10 and `"en"` in the default configuration), and supplied values
are used whenever they are truthy — a nonzero `top_k`, a nonempty
`language`. -/
theorem options_resolution (s : RetrieverState) (n : Nat) (str : String)
    (hn : n ≠ 0) (hs : str ≠ "") :
    (({} : RetrieverConfig).top_k = 10)
    ∧ (({} : RetrieverConfig).language = "en")
    ∧ ((Retriever.load_query_engine s none none none none
        none).1.rerankPP.top_n = s.config.top_k)
    ∧ ((Retriever.load_query_engine s none none none none
        none).1.languagePP.languages = [s.config.language, "python"])
    ∧ ((Retriever.load_query_engine s (some n) (some str) none none
        none).1.rerankPP.top_n = n)
    ∧ ((Retriever.load_query_engine s (some n) (some str) none none
        none).1.languagePP.languages = [str, "python"]) := by
  refine ⟨rfl, rfl, rfl, rfl, ?_, ?_⟩ <;>
    simp [Retriever.load_query_engine, pyOrNat, pyOrStr, hn, hs]

/-- C7 amended witness: a concrete supplied nonzero `top_k` is used. -/
theorem options_resolution_witness :
    ((5 : Nat) ≠ 0) ∧ ("ja" ≠ "")
    ∧ ((Retriever.load_query_engine s0 (some 5) (some "ja") none none
        none).1.rerankPP.top_n = 5) :=
  ⟨by decide, by decide,
   (options_resolution s0 5 "ja" (by decide) (by decide)).2.2.2.2.1⟩

/-- C8: the sequence returned by `retrieve` is exactly the final ranked node
list mapped, in order, to records with the fields `text`, `metadata` and
`score` taken from each node. -/
theorem retrieve_output_records (env : RetrieveEnv) (s : RetrieverState)
    (q : String) (lang : Option String) (tk : Option Nat)
    (inc exc : Option (List String)) (av : Option Bool) :
    (Retriever.retrieve env s q lang tk inc exc av).1
      = (Retriever.finalNodes env s q lang tk inc exc av).map
          Node.toOutput := rfl

/-- C9: constructing the `Retriever` without a service context reads the
undeclared attribute `embeddings_dim` from any configuration carrying no
extra environment-supplied field, so construction fails with
`AttributeError` before any query can be served. -/
theorem init_without_service_context_fails (c : RetrieverConfig)
    (h : c.extra = []) :
    Retriever.init (some c) none
      = Except.error (PyError.attributeError "embeddings_dim") := by
  have hattr : RetrieverConfig.getIntAttr c "embeddings_dim" = none := by
    unfold RetrieverConfig.getIntAttr
    rw [h]
    rfl
  simp [Retriever.init, hattr]

/-- C9 witness: the default configuration has no extra field and default
construction without a service context fails. -/
theorem init_without_service_context_fails_witness :
    ({} : RetrieverConfig).extra = []
    ∧ Retriever.init (some {}) none
        = Except.error (PyError.attributeError "embeddings_dim") :=
  ⟨rfl, init_without_service_context_fails {} rfl⟩

/-- C10: falsy option values are indistinguishable from omitted ones:
a call with `top_k = 0` and `language = ""` is the same call as one with
both omitted, and each falsy value resolves to the configured default. -/
theorem falsy_options_equal_omitted (env : RetrieveEnv) (s : RetrieverState)
    (q : String) (inc exc : Option (List String)) (av : Option Bool) :
    (Retriever.retrieve env s q (some "") (some 0) inc exc av
        = Retriever.retrieve env s q none none inc exc av)
    ∧ (pyOrNat (some 0) s.config.top_k = s.config.top_k)
    ∧ (pyOrStr (some "") s.config.language = s.config.language) :=
  ⟨rfl, rfl, rfl⟩

end Wandbot
